import Mathlib

/-!
Verification of the MOA durable-workflow engine specification against a
shallow embedding of the repository's Python source.

Embedded modules:
* `ai_pipeline/pipeline/errors.py` — the error taxonomy (`ErrorSeverity`,
  `ErrorCategory`, the attributes of `PipelineError`).
* `ai_pipeline/pipeline/retry.py` — `RetryConfig`, `calculate_delay`,
  `should_retry`, and the `retry_async` loop.
* `ai_pipeline/pipeline/graph.py` — the routing functions
  `route_after_critique`, `route_after_human_review`, the delta returned by
  `critique_node`, and the decision branches of `human_review_node`.

Modelling conventions:
* Python floats that carry delays (`initial_delay`, `max_delay`,
  `exponential_base`, `retry_delay`, the computed delay) are embedded as `Rat`.
* Python dict lookups `state.get(key, default)` are embedded as `Option`
  fields read with `Option.getD`; a bare `state[key]` index is embedded by
  passing the value directly (it is always present in real states, since
  `create_initial_state` in `state.py` initialises every such field).
* `random.uniform(0, 0.5)` inside `calculate_delay` is embedded as an
  explicit `rand` argument; all jitter-related claims fix `jitter = false`,
  where the argument is ignored.
* The `retry_on` tuple of exception classes in `RetryConfig` is embedded as a
  Boolean predicate on errors; `isinstance(error, config.retry_on)` becomes
  application of that predicate.  The constructor default
  `retry_on or (PipelineError,)` becomes the predicate `Err.isPipeline`,
  and every config constructed in the repository uses this default.
-/

/-- Severity levels from `errors.py` (`ErrorSeverity`). -/
inductive ErrorSeverity where
  | warning
  | error
  | critical
deriving DecidableEq, Repr

/-- Error categories from `errors.py` (`ErrorCategory`). -/
inductive ErrorCategory where
  | network
  | external_api
  | validation
  | processing
  | timeout
  | resource
  | auth
deriving DecidableEq, Repr

/-- The attributes of `PipelineError` (`errors.py`) that the retry machinery
reads: `severity`, `recoverable` and the suggested `retry_delay`, plus the
classification `category` and the human-readable `message`.  The `node` and
`context` attributes are logging-only and are not modelled. -/
structure PipelineErr where
  message : String
  severity : ErrorSeverity
  category : ErrorCategory
  recoverable : Bool
  retry_delay : Rat
deriving DecidableEq, Repr

/-- A Python exception at the retry boundary: either a classified
`PipelineError` or a bare (unclassified) exception carrying only its
string rendering. -/
inductive Err where
  | pipeline (p : PipelineErr)
  | bare (message : String)
deriving DecidableEq, Repr

/-- `isinstance(e, PipelineError)`. -/
def Err.isPipeline : Err → Bool
  | .pipeline _ => true
  | .bare _ => false

/-- The constructor default `retry_on or (PipelineError,)` of
`RetryConfig.__init__`, as a predicate on exceptions. -/
def defaultRetryOn : Err → Bool := Err.isPipeline

/-- `RetryConfig` from `retry.py`.  `retry_on` embeds the tuple of retryable
exception classes as a membership predicate (see file header). -/
structure RetryConfig where
  max_retries : Nat
  initial_delay : Rat
  max_delay : Rat
  exponential_base : Rat
  jitter : Bool
  retry_on : Err → Bool

/-- `RETRY_CONFIGS["llm"]` from `retry.py` (jitter and retry_on are the
constructor defaults). -/
def llmRetryConfig : RetryConfig :=
  { max_retries := 3
    initial_delay := 2
    max_delay := 60
    exponential_base := 2
    jitter := true
    retry_on := defaultRetryOn }

/-- `RETRY_CONFIGS["stt"]` from `retry.py`. -/
def sttRetryConfig : RetryConfig :=
  { max_retries := 3
    initial_delay := 5
    max_delay := 120
    exponential_base := 2
    jitter := true
    retry_on := defaultRetryOn }

/-- `calculate_delay` from `retry.py`.  `rand` is the sample that
`random.uniform(0, 0.5)` would return; it is consumed only when
`config.jitter` is set.  A `PipelineError` always has the `retry_delay`
attribute, so the `hasattr` guard is vacuous in the embedding. -/
def calculate_delay (attempt : Nat) (config : RetryConfig)
    (error : Option PipelineErr) (rand : Rat) : Rat :=
  let base_delay :=
    match error with
    | some e =>
        if 0 < e.retry_delay then e.retry_delay
        else config.initial_delay * config.exponential_base ^ attempt
    | none => config.initial_delay * config.exponential_base ^ attempt
  let delay := min base_delay config.max_delay
  if config.jitter then delay + delay * rand else delay

/-- `should_retry` from `retry.py`: false once `attempt >= max_retries`,
false when the error is not an instance of `config.retry_on`, and for
classified errors false when non-recoverable or critical. -/
def should_retry (error : Err) (config : RetryConfig) (attempt : Nat) : Bool :=
  if config.max_retries ≤ attempt then false
  else if !(config.retry_on error) then false
  else
    match error with
    | .pipeline p =>
        if !p.recoverable then false
        else if p.severity = ErrorSeverity.critical then false
        else true
    | .bare _ => true

/-- The observable outcome of `retry_async`: a returned value, a re-raised
caught exception (the bare `raise` on the non-retryable branch), or the
`MaxRetriesExceededError` constructed after the loop. -/
inductive RetryResult (T : Type) where
  | ok (t : T)
  | raised (e : Err)
  | maxRetriesExceeded (max_retries : Nat)
deriving DecidableEq, Repr

/-- The `for attempt in range(config.max_retries + 1)` loop of
`retry_async`.  `f` gives the outcome of the wrapped call on each attempt
(0-indexed); `fuel` is the number of loop iterations left; the second
component of the result counts how many times `f` was invoked.  The
`asyncio.sleep(delay)` between attempts does not affect the outcome and is
not modelled. -/
def retryLoop {T : Type} (f : Nat → Except Err T) (config : RetryConfig) :
    Nat → Nat → RetryResult T × Nat
  | 0, _ => (.maxRetriesExceeded config.max_retries, 0)
  | fuel + 1, attempt =>
      match f attempt with
      | .ok t => (.ok t, 1)
      | .error e =>
          if should_retry e config attempt then
            match retryLoop f config fuel (attempt + 1) with
            | (r, calls) => (r, calls + 1)
          else
            (.raised e, 1)

/-- `retry_async` from `retry.py`, as outcome plus attempt count. -/
def retry_async {T : Type} (f : Nat → Except Err T) (config : RetryConfig) :
    RetryResult T × Nat :=
  retryLoop f config (config.max_retries + 1) 0

/-- The routing-relevant subset of `MeetingAgentState` (`state.py`);
each field is optional because the routers read it with `state.get`. -/
structure MeetingAgentState where
  status : Option String
  critique_passed : Option Bool
  retry_count : Option Nat
  human_approved : Option Bool
deriving DecidableEq, Repr

/-- `route_after_critique` from `graph.py`. -/
def route_after_critique (state : MeetingAgentState) : String :=
  if state.status = some "failed" then "end"
  else if state.critique_passed.getD false then "human_review"
  else if state.retry_count.getD 0 < 3 then "summarizer"
  else "human_review"

/-- `route_after_human_review` from `graph.py`. -/
def route_after_human_review (state : MeetingAgentState) : String :=
  if state.human_approved.getD false then "save"
  else if state.retry_count.getD 0 < 5 then "summarizer"
  else "end"

/-- `route_after_stt` from `graph.py`. -/
def route_after_stt (state : MeetingAgentState) : String :=
  if state.status = some "failed" then "end"
  else "summarizer"

/-- The dict returned by `critique_results` as read by `critique_node`
through `result.get(key, default)`. -/
structure CritiqueLLMResult where
  passed : Option Bool
  critique : Option String
  issues : Option (List String)
deriving DecidableEq, Repr

/-- The delta dict returned by `critique_node`; `none` means the key is
absent from the returned dict. -/
structure CritiqueDelta where
  critique : Option String
  critique_issues : Option (List String)
  critique_passed : Option Bool
  retry_count : Option Nat
  status : Option String
deriving DecidableEq, Repr

/-- String rendering of a caught exception (`str(e)`). -/
def errStr : Err → String
  | .pipeline p => p.message
  | .bare s => s

/-- `critique_node` from `graph.py`, as a function of the incoming
`state["retry_count"]` (always present, set by `create_initial_state`) and
of the outcome of `retry_async(do_critique, ...)`.  The first degraded
branch is `except (MaxRetriesExceededError, PipelineError)`, the second is
`except Exception`; `do_critique` itself re-raises any exception as a
classified `CritiqueError` or `LLMResponseError`, so at the `retry_async`
boundary a raised error is a `PipelineError` or the `MaxRetriesExceededError`
rendering below. -/
def critique_node (retry_count : Nat) (call : RetryResult CritiqueLLMResult) :
    CritiqueDelta :=
  match call with
  | .ok result =>
      let passed := result.passed.getD false
      { critique := some (result.critique.getD "")
        critique_issues := some (result.issues.getD [])
        critique_passed := some passed
        retry_count := some (if !passed then retry_count + 1 else retry_count)
        status := some "critique_complete" }
  | .raised (.pipeline p) =>
      { critique := some ("Critique skipped due to error: " ++ p.message)
        critique_issues := some []
        critique_passed := some true
        retry_count := none
        status := some "critique_complete" }
  | .maxRetriesExceeded m =>
      { critique := some ("Critique skipped due to error: Max retries ("
          ++ toString m ++ ") exceeded for critique")
        critique_issues := some []
        critique_passed := some true
        retry_count := none
        status := some "critique_complete" }
  | .raised (.bare s) =>
      { critique := some ("Critique skipped: " ++ s)
        critique_issues := some []
        critique_passed := some true
        retry_count := none
        status := some "critique_complete" }

/-- The reserved keys of the resume decision dict that `human_review_node`
inspects (`action`, `feedback`); the optional `updated_*` content keys only
fill content fields of the approve delta and are not modelled. -/
structure UserDecision where
  action : Option String
  feedback : Option String
deriving DecidableEq, Repr

/-- The routing-relevant keys of the delta returned by `human_review_node`;
`none` means the key is absent.  The approve branch additionally returns the
`final_*` content keys, which no router reads. -/
structure HumanReviewDelta where
  human_approved : Option Bool
  human_feedback : Option String
  status : Option String
  retry_count : Option Nat
deriving DecidableEq, Repr

/-- The decision processing of `human_review_node` (`graph.py`) after the
`interrupt()` call returns `user_decision`.  In every resume path the
decision is the non-empty dict built by `resume_after_review`, so the
truthiness test on `user_decision` reduces to the `action` comparison. -/
def human_review_node (state : MeetingAgentState) (user_decision : UserDecision) :
    HumanReviewDelta :=
  if user_decision.action = some "approve" then
    { human_approved := some true
      human_feedback := some (user_decision.feedback.getD "Approved")
      status := some "approved"
      retry_count := none }
  else
    { human_approved := some false
      human_feedback := some (user_decision.feedback.getD "Rejected - needs revision")
      status := some "revision_requested"
      retry_count := some (state.retry_count.getD 0 + 1) }

/-- LangGraph merges a node delta into the running state key by key
(overwrite-by-key); an absent key leaves the state field unchanged. -/
def applyHumanReviewDelta (state : MeetingAgentState) (delta : HumanReviewDelta) :
    MeetingAgentState :=
  { status := match delta.status with | some v => some v | none => state.status
    critique_passed := state.critique_passed
    retry_count := match delta.retry_count with | some v => some v | none => state.retry_count
    human_approved := match delta.human_approved with | some v => some v | none => state.human_approved }

/-- A recoverable, error-severity classified error in the shape of the
rate-limit error raised by the llm wrappers; a concrete retryable test
value. -/
def recoverableErr : PipelineErr :=
  { message := "Rate limit: too many requests"
    severity := ErrorSeverity.error
    category := ErrorCategory.external_api
    recoverable := true
    retry_delay := 0 }

/-- The llm config with jitter disabled, used by the deterministic delay
claims. -/
def noJitterLlmConfig : RetryConfig :=
  { llmRetryConfig with jitter := false }

/-- A RetryConfig accepted by the `RetryConfig.__init__` signature whose
exponential base is below one (the constructor does not validate its
arguments). -/
def shrinkingBackoffConfig : RetryConfig :=
  { max_retries := 3
    initial_delay := 1
    max_delay := 60
    exponential_base := 1 / 2
    jitter := false
    retry_on := defaultRetryOn }

/-- A max_retries == 0 config: never retry, fail immediately on the first
error. -/
def zeroRetryConfig : RetryConfig :=
  { max_retries := 0
    initial_delay := 1
    max_delay := 60
    exponential_base := 2
    jitter := true
    retry_on := defaultRetryOn }

/-! ## Theorems -/

/-- For a recoverable, non-critical classified error accepted by the
config's retry_on set, should_retry reduces to the attempt bound check. -/
theorem should_retry_recoverable (p : PipelineErr) (cfg : RetryConfig) (a : Nat)
    (h_on : cfg.retry_on (Err.pipeline p) = true)
    (hrec : p.recoverable = true) (hsev : p.severity ≠ ErrorSeverity.critical) :
    should_retry (Err.pipeline p) cfg a = decide (a < cfg.max_retries) := by
  unfold should_retry
  rw [h_on]
  by_cases h : cfg.max_retries ≤ a
  · simp [h, Nat.not_lt.mpr h]
  · simp [h, hrec, hsev, Nat.lt_of_not_le h]

/-- When the wrapped call fails with a retryable classified error on the
first n attempts and succeeds on attempt n (all within the retry budget),
the loop returns the success and makes exactly n + 1 calls. -/
theorem retryLoop_ok_of_failures {T : Type} (f : Nat → Except Err T)
    (cfg : RetryConfig) (p : PipelineErr)
    (h_on : cfg.retry_on (Err.pipeline p) = true)
    (hrec : p.recoverable = true) (hsev : p.severity ≠ ErrorSeverity.critical) :
    ∀ (n attempt : Nat) (t : T), attempt + n ≤ cfg.max_retries →
      (∀ i, i < n → f (attempt + i) = Except.error (Err.pipeline p)) →
      f (attempt + n) = Except.ok t →
      retryLoop f cfg (cfg.max_retries + 1 - attempt) attempt = (.ok t, n + 1) := by
  intro n
  induction n with
  | zero =>
    intro attempt t hle hfail hok
    obtain ⟨m, hm⟩ : ∃ m, cfg.max_retries + 1 - attempt = m + 1 :=
      ⟨cfg.max_retries - attempt, by omega⟩
    rw [hm]
    rw [Nat.add_zero] at hok
    simp only [retryLoop]
    rw [hok]
  | succ n ih =>
    intro attempt t hle hfail hok
    have h0 : f attempt = Except.error (Err.pipeline p) := by
      have h := hfail 0 (Nat.succ_pos n)
      simpa using h
    have hlt : attempt < cfg.max_retries := by omega
    obtain ⟨m, hm⟩ : ∃ m, cfg.max_retries + 1 - attempt = m + 1 :=
      ⟨cfg.max_retries - attempt, by omega⟩
    rw [hm]
    simp only [retryLoop]
    rw [h0]
    dsimp only
    rw [should_retry_recoverable p cfg attempt h_on hrec hsev]
    have hm2 : m = cfg.max_retries + 1 - (attempt + 1) := by omega
    have ihx := ih (attempt + 1) t (by omega)
      (fun i hi => by
        have h := hfail (i + 1) (by omega)
        rw [show attempt + (i + 1) = attempt + 1 + i from by omega] at h
        exact h)
      (by rw [show attempt + 1 + n = attempt + (n + 1) from by omega]; exact hok)
    rw [hm2, ihx]
    simp [hlt]

/-- When the wrapped call fails with a retryable classified error on every
attempt, the loop consumes its whole budget and re-raises the original
error. -/
theorem retryLoop_raises_original_of_all_fail {T : Type} (f : Nat → Except Err T)
    (cfg : RetryConfig) (p : PipelineErr)
    (h_on : cfg.retry_on (Err.pipeline p) = true)
    (hrec : p.recoverable = true) (hsev : p.severity ≠ ErrorSeverity.critical)
    (hf : ∀ i, f i = Except.error (Err.pipeline p)) :
    ∀ (fuel attempt : Nat), 1 ≤ fuel → attempt + fuel = cfg.max_retries + 1 →
      retryLoop f cfg fuel attempt = (.raised (Err.pipeline p), fuel) := by
  intro fuel
  induction fuel with
  | zero => intro attempt h1 _; omega
  | succ m ih =>
    intro attempt _ hsum
    simp only [retryLoop]
    rw [hf attempt]
    dsimp only
    rw [should_retry_recoverable p cfg attempt h_on hrec hsev]
    cases m with
    | zero =>
      have hge : ¬ (attempt < cfg.max_retries) := by omega
      simp [hge]
    | succ k =>
      have hlt : attempt < cfg.max_retries := by omega
      rw [ih (attempt + 1) (by omega) (by omega)]
      simp [hlt]

/-- C1. For every post-critique state: if status is "failed" the router
returns "end"; otherwise if critique_passed is true it returns
"human_review"; otherwise if retry_count is below 3 it returns "summarizer";
otherwise it returns "human_review". -/
theorem C1_route_after_critique (s : MeetingAgentState) :
    (s.status = some "failed" → route_after_critique s = "end")
    ∧ (s.status ≠ some "failed" → s.critique_passed.getD false = true →
        route_after_critique s = "human_review")
    ∧ (s.status ≠ some "failed" → s.critique_passed.getD false = false →
        s.retry_count.getD 0 < 3 → route_after_critique s = "summarizer")
    ∧ (s.status ≠ some "failed" → s.critique_passed.getD false = false →
        3 ≤ s.retry_count.getD 0 → route_after_critique s = "human_review") := by
  refine ⟨?_, ?_, ?_, ?_⟩
  · intro h
    simp [route_after_critique, h]
  · intro h hc
    simp [route_after_critique, h, hc]
  · intro h hc hr
    simp [route_after_critique, h, hc, hr]
  · intro h hc hr
    simp [route_after_critique, h, hc, Nat.not_lt.mpr hr]

/-- C1 witness: with critique not passed, retry counts 0, 1, 2 route to
"summarizer" and retry count 3 routes to "human_review"; a failed status
routes to "end"; a passed critique routes to "human_review". -/
theorem C1_route_after_critique_witness :
    route_after_critique ⟨some "critique_complete", some false, some 0, none⟩ = "summarizer"
    ∧ route_after_critique ⟨some "critique_complete", some false, some 1, none⟩ = "summarizer"
    ∧ route_after_critique ⟨some "critique_complete", some false, some 2, none⟩ = "summarizer"
    ∧ route_after_critique ⟨some "critique_complete", some false, some 3, none⟩ = "human_review"
    ∧ route_after_critique ⟨some "failed", some false, some 0, none⟩ = "end"
    ∧ route_after_critique ⟨some "critique_complete", some true, some 0, none⟩ = "human_review" :=
  ⟨(C1_route_after_critique _).2.2.1 (by decide) rfl (by decide),
   (C1_route_after_critique _).2.2.1 (by decide) rfl (by decide),
   (C1_route_after_critique _).2.2.1 (by decide) rfl (by decide),
   (C1_route_after_critique _).2.2.2 (by decide) rfl (by decide),
   (C1_route_after_critique _).1 rfl,
   (C1_route_after_critique _).2.1 (by decide) rfl⟩

/-- C3. For a classified PipelineError, under a config whose retry_on set
accepts PipelineError (the constructor default), should_retry returns true
exactly when the attempt is below max_retries, the error is recoverable and
the severity is not critical; in the three excluded cases it returns
false. -/
theorem C3_should_retry_characterisation (p : PipelineErr) (cfg : RetryConfig)
    (a : Nat) (h_on : cfg.retry_on (Err.pipeline p) = true) :
    should_retry (Err.pipeline p) cfg a = true ↔
      (a < cfg.max_retries ∧ p.recoverable = true
        ∧ p.severity ≠ ErrorSeverity.critical) := by
  simp only [should_retry, h_on]
  constructor
  · intro h
    by_cases h1 : cfg.max_retries ≤ a
    · simp [h1] at h
    · by_cases h2 : p.recoverable
      · by_cases h3 : p.severity = ErrorSeverity.critical
        · simp [h1, h2, h3] at h
        · exact ⟨Nat.lt_of_not_le h1, h2, h3⟩
      · simp [h1, h2] at h
  · rintro ⟨h1, h2, h3⟩
    simp [Nat.not_le.mpr h1, h2, h3]

/-- C3 witness: a recoverable, error-severity PipelineError at attempt 0
under the llm config is retried, and at attempt 3 (= max_retries) it is
not. -/
theorem C3_should_retry_witness :
    should_retry
      (Err.pipeline ⟨"rate limit", ErrorSeverity.error, ErrorCategory.external_api, true, 60⟩)
      llmRetryConfig 0 = true
    ∧ ¬ should_retry
      (Err.pipeline ⟨"rate limit", ErrorSeverity.error, ErrorCategory.external_api, true, 60⟩)
      llmRetryConfig 3 = true :=
  ⟨(C3_should_retry_characterisation _ _ _ rfl).mpr ⟨by decide, rfl, by decide⟩,
   fun h => by
    rcases (C3_should_retry_characterisation _ _ _ rfl).mp h with ⟨h1, -, -⟩
    exact absurd h1 (by decide)⟩

/-- C7. Whenever the critique call fails (the retry-wrapped call does not
return a result, whether it raised a classified error, a bare exception, or
the exhaustion error), critique_node returns a successful degraded delta
with critique_passed true and status "critique_complete". -/
theorem C7_critique_degrades_to_success (retry_count : Nat)
    (call : RetryResult CritiqueLLMResult) (h : ∀ r, call ≠ .ok r) :
    (critique_node retry_count call).critique_passed = some true
    ∧ (critique_node retry_count call).status = some "critique_complete" := by
  match call with
  | .ok r => exact absurd rfl (h r)
  | .raised (.pipeline p) => exact ⟨rfl, rfl⟩
  | .raised (.bare s) => exact ⟨rfl, rfl⟩
  | .maxRetriesExceeded m => exact ⟨rfl, rfl⟩

/-- C7 witness: a critique that raised a critical classified error after
exhausting retries still yields critique_passed true and status
"critique_complete". -/
theorem C7_critique_degrades_to_success_witness :
    (critique_node 0 (.raised (Err.pipeline
        ⟨"Critique failed", ErrorSeverity.error, ErrorCategory.external_api, true, 0⟩))).critique_passed
      = some true
    ∧ (critique_node 0 (.raised (Err.pipeline
        ⟨"Critique failed", ErrorSeverity.error, ErrorCategory.external_api, true, 0⟩))).status
      = some "critique_complete" :=
  C7_critique_degrades_to_success 0 _ (fun r h => by cases h)

/-- C9. With jitter disabled, calculate_delay never exceeds max_delay,
whatever the attempt and whatever suggested retry_delay the error carries:
the min-cap applies to both the error-suggested base and the exponential
backoff base. -/
theorem C9_delay_capped (cfg : RetryConfig) (hj : cfg.jitter = false)
    (a : Nat) (err : Option PipelineErr) (rand : Rat) :
    calculate_delay a cfg err rand ≤ cfg.max_delay := by
  unfold calculate_delay
  simp only [hj, if_false, Bool.false_eq_true]
  exact min_le_right _ _

/-- C9 witness: an error suggesting a 1000-second delay under a no-jitter
config with max_delay 60 still yields a delay at most 60. -/
theorem C9_delay_capped_witness :
    calculate_delay 0
      { max_retries := 3, initial_delay := 2, max_delay := 60,
        exponential_base := 2, jitter := false, retry_on := defaultRetryOn }
      (some ⟨"rate limit", ErrorSeverity.error, ErrorCategory.external_api, true, 1000⟩)
      0
    ≤ (60 : Rat) :=
  C9_delay_capped _ rfl 0 _ 0

/-- C10. The delta of critique_node carries the retry_count key exactly on
the successful-critique path, where it is the incoming count plus one when
the critique did not pass and the unchanged count when it passed; both
degraded paths omit the key. -/
theorem C10_critique_retry_count_frame (retry_count : Nat)
    (call : RetryResult CritiqueLLMResult) :
    (∀ r, call = .ok r →
      (critique_node retry_count call).retry_count =
        some (if r.passed.getD false then retry_count else retry_count + 1))
    ∧ ((∀ r, call ≠ .ok r) → (critique_node retry_count call).retry_count = none) := by
  constructor
  · rintro r rfl
    by_cases hp : r.passed.getD false
    · simp [critique_node, hp]
    · simp [critique_node, hp]
  · intro h
    match call with
    | .ok r => exact absurd rfl (h r)
    | .raised (.pipeline p) => rfl
    | .raised (.bare s) => rfl
    | .maxRetriesExceeded m => rfl

/-- C10 witness: a failed critique result at incoming retry_count 2 yields
retry_count 3, a passed one leaves it at 2, and a degraded (raised) call
omits the key. -/
theorem C10_critique_retry_count_frame_witness :
    (critique_node 2 (.ok ⟨some false, some "issues", some []⟩)).retry_count = some 3
    ∧ (critique_node 2 (.ok ⟨some true, some "ok", some []⟩)).retry_count = some 2
    ∧ (critique_node 2 (.raised (Err.bare "boom"))).retry_count = none := by
  refine ⟨?_, ?_, ?_⟩
  · have h := (C10_critique_retry_count_frame 2 (.ok ⟨some false, some "issues", some []⟩)).1
      ⟨some false, some "issues", some []⟩ rfl
    simpa using h
  · have h := (C10_critique_retry_count_frame 2 (.ok ⟨some true, some "ok", some []⟩)).1
      ⟨some true, some "ok", some []⟩ rfl
    simpa using h
  · exact (C10_critique_retry_count_frame 2 (.raised (Err.bare "boom"))).2
      (fun r h => by cases h)

/-- C2. Under a config whose retry_on set accepts PipelineError (the
constructor default), with a recoverable, non-critical classified error
raised on each failing call: retry_async makes exactly min(max_retries, n)+1
calls, i.e. n+1 calls ending in success when the first n attempts fail and
attempt n succeeds within the budget, and max_retries+1 calls ending in a
terminal failure when every attempt fails.  Together with max_retries = 0
this means a single call failing immediately with no retry. -/
theorem C2_retry_attempt_count {T : Type} (cfg : RetryConfig) (p : PipelineErr)
    (h_on : cfg.retry_on (Err.pipeline p) = true)
    (hrec : p.recoverable = true) (hsev : p.severity ≠ ErrorSeverity.critical) :
    (∀ (f : Nat → Except Err T) (n : Nat) (t : T), n ≤ cfg.max_retries →
      (∀ i, i < n → f i = Except.error (Err.pipeline p)) →
      f n = Except.ok t →
      retry_async f cfg = (.ok t, min cfg.max_retries n + 1))
    ∧ (∀ (f : Nat → Except Err T), (∀ i, f i = Except.error (Err.pipeline p)) →
      (retry_async f cfg).2 = cfg.max_retries + 1
        ∧ (retry_async f cfg).1 = .raised (Err.pipeline p)) := by
  constructor
  · intro f n t hn hfail hok
    have h := retryLoop_ok_of_failures f cfg p h_on hrec hsev n 0 t
      (by omega) (fun i hi => by simpa using hfail i hi) (by simpa using hok)
    unfold retry_async
    rw [show cfg.max_retries + 1 - 0 = cfg.max_retries + 1 from rfl] at h
    rw [h, Nat.min_eq_right hn]
  · intro f hf
    have h := retryLoop_raises_original_of_all_fail f cfg p h_on hrec hsev hf
      (cfg.max_retries + 1) 0 (by omega) (by omega)
    unfold retry_async
    rw [h]
    exact ⟨rfl, rfl⟩

/-- C2 witness: under the llm config (max_retries 3) a function failing
twice with a recoverable error then succeeding is called 3 = min(3,2)+1
times; one failing always is called 4 times without success; under a
max_retries = 0 config a single failure ends the call immediately after 1
attempt. -/
theorem C2_retry_attempt_count_witness :
    retry_async
        (fun i => if i < 2 then Except.error (Err.pipeline recoverableErr)
                  else (Except.ok () : Except Err Unit))
        llmRetryConfig = (.ok (), 3)
    ∧ (retry_async (fun _ => (Except.error (Err.pipeline recoverableErr) : Except Err Unit))
        llmRetryConfig).2 = 4
    ∧ (retry_async (fun _ => (Except.error (Err.pipeline recoverableErr) : Except Err Unit))
        zeroRetryConfig).2 = 1 := by
  refine ⟨?_, ?_, ?_⟩
  · have h := (C2_retry_attempt_count llmRetryConfig recoverableErr rfl rfl (by decide)).1
      (fun i => if i < 2 then Except.error (Err.pipeline recoverableErr)
                else (Except.ok () : Except Err Unit))
      2 () (by decide) (fun i hi => by simp [hi]) (by simp)
    simpa using h
  · have h := (C2_retry_attempt_count llmRetryConfig recoverableErr rfl rfl (by decide)).2
      (fun _ => (Except.error (Err.pipeline recoverableErr) : Except Err Unit))
      (fun _ => rfl)
    simpa using h.1
  · have h := (C2_retry_attempt_count zeroRetryConfig recoverableErr rfl rfl (by decide)).2
      (fun _ => (Except.error (Err.pipeline recoverableErr) : Except Err Unit))
      (fun _ => rfl)
    simpa using h.1

/-- C5. Code behaviour at the failing input: under the llm config a stage
failing on every attempt with a recoverable, error-severity PipelineError is
attempted 4 times and then the ORIGINAL error is re-raised; the result is
not the MaxRetriesExceededError the claim, the spec and the docstring of
retry_async require.  The cause: on the final loop iteration should_retry
already returns false because attempt has reached max_retries, so the
non-retryable `raise` branch fires and the MaxRetriesExceededError
construction after the loop is unreachable for every config. -/
theorem C5_exhaustion_raises_original_error :
    retry_async (fun _ => (Except.error (Err.pipeline recoverableErr) : Except Err Unit))
        llmRetryConfig
      = (.raised (Err.pipeline recoverableErr), 4)
    ∧ (∀ m : Nat,
        (retry_async (fun _ => (Except.error (Err.pipeline recoverableErr) : Except Err Unit))
          llmRetryConfig).1 ≠ .maxRetriesExceeded m) := by
  refine ⟨rfl, ?_⟩
  intro m h
  rw [show (retry_async (fun _ => (Except.error (Err.pipeline recoverableErr) : Except Err Unit))
      llmRetryConfig).1 = .raised (Err.pipeline recoverableErr) from rfl] at h
  cases h

/-- C6 counterexample: an unclassified bare exception under the llm config
is NOT wrapped into a recoverable Processing error and is NOT retried:
should_retry rejects it on the isinstance check against the default
retry_on = (PipelineError,), so retry_async re-raises the bare exception
unchanged after a single attempt, where the claim predicts 4 attempts of a
wrapped recoverable error. -/
theorem C6_bare_exception_counterexample :
    retry_async (fun _ => (Except.error (Err.bare "RuntimeError") : Except Err Unit))
        llmRetryConfig
      = (.raised (Err.bare "RuntimeError"), 1)
    ∧ should_retry (Err.bare "RuntimeError") llmRetryConfig 0 = false :=
  ⟨rfl, rfl⟩

/-- C6 amended: an exception that is not a PipelineError is never retried
under the default retry_on set: should_retry returns false for it at every
attempt, and retry_async re-raises it unclassified after exactly one call.
(Wrapping of unknown exceptions into classified errors happens inside the
stage bodies, e.g. do_critique, not in the retry machinery.) -/
theorem C6_bare_exception_not_retried (cfg : RetryConfig)
    (h_on : cfg.retry_on = defaultRetryOn) (s : String) :
    (∀ a, should_retry (Err.bare s) cfg a = false)
    ∧ (∀ (T : Type) (f : Nat → Except Err T), f 0 = Except.error (Err.bare s) →
        retry_async f cfg = (.raised (Err.bare s), 1)) := by
  have hsr : ∀ a, should_retry (Err.bare s) cfg a = false := by
    intro a
    unfold should_retry
    rw [h_on]
    simp [defaultRetryOn, Err.isPipeline]
  refine ⟨hsr, ?_⟩
  intro T f hf
  unfold retry_async
  simp only [retryLoop]
  rw [hf]
  dsimp only
  rw [hsr 0]
  simp

/-- C6 amended witness: a bare RuntimeError under the llm config is not
retryable at attempt 0 and surfaces unchanged after one call. -/
theorem C6_bare_exception_not_retried_witness :
    should_retry (Err.bare "RuntimeError") llmRetryConfig 0 = false
    ∧ retry_async (fun _ => (Except.error (Err.bare "RuntimeError") : Except Err Unit))
        llmRetryConfig = (.raised (Err.bare "RuntimeError"), 1) :=
  ⟨(C6_bare_exception_not_retried llmRetryConfig rfl "RuntimeError").1 0,
   (C6_bare_exception_not_retried llmRetryConfig rfl "RuntimeError").2 Unit _ rfl⟩

/-- C4 counterexample: resume with a reject decision on a state whose
retry_count is 5 merges a delta with status "revision_requested" and
retry_count 6; the router then returns "end", but the terminal state keeps
status "revision_requested" — the claimed status "failed" never appears on
this path. -/
theorem C4_reject_exhausted_counterexample :
    route_after_human_review
        (applyHumanReviewDelta
          ⟨some "critique_complete", some true, some 5, none⟩
          (human_review_node ⟨some "critique_complete", some true, some 5, none⟩
            ⟨some "reject", some "still not good"⟩))
      = "end"
    ∧ (applyHumanReviewDelta
          ⟨some "critique_complete", some true, some 5, none⟩
          (human_review_node ⟨some "critique_complete", some true, some 5, none⟩
            ⟨some "reject", some "still not good"⟩)).status
      = some "revision_requested"
    ∧ (applyHumanReviewDelta
          ⟨some "critique_complete", some true, some 5, none⟩
          (human_review_node ⟨some "critique_complete", some true, some 5, none⟩
            ⟨some "reject", some "still not good"⟩)).status
      ≠ some "failed" := by
  refine ⟨rfl, rfl, fun h => ?_⟩
  rw [show (applyHumanReviewDelta
          ⟨some "critique_complete", some true, some 5, none⟩
          (human_review_node ⟨some "critique_complete", some true, some 5, none⟩
            ⟨some "reject", some "still not good"⟩)).status
      = some "revision_requested" from rfl] at h
  simp at h

/-- C4 amended: if human_approved is true the router returns "save";
otherwise if retry_count is below 5 it returns "summarizer"; otherwise it
returns "end".  A rejection increments retry_count and records status
"revision_requested" — the terminal state of the exhausted-rejection path
carries that status, and no step of this path records status "failed". -/
theorem C4_route_after_human_review_amended :
    (∀ s : MeetingAgentState,
      (s.human_approved.getD false = true → route_after_human_review s = "save")
      ∧ (s.human_approved.getD false = false → s.retry_count.getD 0 < 5 →
          route_after_human_review s = "summarizer")
      ∧ (s.human_approved.getD false = false → 5 ≤ s.retry_count.getD 0 →
          route_after_human_review s = "end"))
    ∧ (∀ (s : MeetingAgentState) (d : UserDecision), d.action ≠ some "approve" →
        (human_review_node s d).status = some "revision_requested"
        ∧ (human_review_node s d).human_approved = some false
        ∧ (human_review_node s d).retry_count = some (s.retry_count.getD 0 + 1)) := by
  constructor
  · intro s
    refine ⟨?_, ?_, ?_⟩
    · intro h
      simp [route_after_human_review, h]
    · intro h hr
      simp [route_after_human_review, h, hr]
    · intro h hr
      simp [route_after_human_review, h, Nat.not_lt.mpr hr]
  · intro s d hd
    simp [human_review_node, hd]

/-- C4 amended witness: an approved state routes to "save"; a rejected
state with retry_count 4 routes to "summarizer" and with retry_count 5 to
"end"; a reject decision on a retry_count 5 state yields a delta with
status "revision_requested" and retry_count 6. -/
theorem C4_route_after_human_review_amended_witness :
    route_after_human_review ⟨some "approved", some true, some 2, some true⟩ = "save"
    ∧ route_after_human_review ⟨some "revision_requested", some true, some 4, some false⟩
      = "summarizer"
    ∧ route_after_human_review ⟨some "revision_requested", some true, some 5, some false⟩
      = "end"
    ∧ (human_review_node ⟨some "critique_complete", some true, some 5, none⟩
        ⟨some "reject", some "redo"⟩).status = some "revision_requested"
    ∧ (human_review_node ⟨some "critique_complete", some true, some 5, none⟩
        ⟨some "reject", some "redo"⟩).retry_count = some 6 := by
  refine ⟨?_, ?_, ?_, ?_, ?_⟩
  · exact (C4_route_after_human_review_amended.1 _).1 rfl
  · exact (C4_route_after_human_review_amended.1 _).2.1 rfl (by decide)
  · exact (C4_route_after_human_review_amended.1 _).2.2 rfl (by decide)
  · exact (C4_route_after_human_review_amended.2 _ ⟨some "reject", some "redo"⟩ (by decide)).1
  · have h := (C4_route_after_human_review_amended.2
      ⟨some "critique_complete", some true, some 5, none⟩
      ⟨some "reject", some "redo"⟩ (by decide)).2.2
    simpa using h

/-- C8 counterexample: RetryConfig accepts an exponential base below one,
and for such a config the no-jitter delay strictly decreases from attempt 0
to attempt 1, refuting monotonicity over every fixed config. -/
theorem C8_backoff_monotone_counterexample :
    calculate_delay 1 shrinkingBackoffConfig none 0
      < calculate_delay 0 shrinkingBackoffConfig none 0 := by
  have h1 : calculate_delay 1 shrinkingBackoffConfig none 0 = 1 / 2 := by
    simp only [calculate_delay, shrinkingBackoffConfig]
    norm_num [min_def]
  have h0 : calculate_delay 0 shrinkingBackoffConfig none 0 = 1 := by
    simp only [calculate_delay, shrinkingBackoffConfig]
    norm_num [min_def]
  rw [h0, h1]
  norm_num

/-- C8 amended: for a fixed config with jitter disabled, a nonnegative
initial delay and an exponential base of at least one, and a fixed error
hint, calculate_delay is monotonically non-decreasing in the attempt number
and always capped at max_delay.  (Every config defined in the repository
has base 2 and positive initial delay.) -/
theorem C8_backoff_monotone_amended (cfg : RetryConfig) (hj : cfg.jitter = false)
    (h0 : 0 ≤ cfg.initial_delay) (h1 : 1 ≤ cfg.exponential_base)
    (err : Option PipelineErr) (rand : Rat) (a : Nat) :
    calculate_delay a cfg err rand ≤ calculate_delay (a + 1) cfg err rand
    ∧ calculate_delay a cfg err rand ≤ cfg.max_delay := by
  have hpow : cfg.initial_delay * cfg.exponential_base ^ a
      ≤ cfg.initial_delay * cfg.exponential_base ^ (a + 1) := by
    apply mul_le_mul_of_nonneg_left _ h0
    exact pow_le_pow_right₀ h1 (Nat.le_succ a)
  unfold calculate_delay
  simp only [hj, Bool.false_eq_true, if_false]
  constructor
  · match err with
    | none => exact min_le_min hpow le_rfl
    | some e =>
      by_cases hd : 0 < e.retry_delay
      · simp [hd]
      · simp only [hd, if_false]
        exact min_le_min hpow le_rfl
  · match err with
    | none => exact min_le_right _ _
    | some e => exact min_le_right _ _

/-- C8 amended witness: under the no-jitter llm config the delay at attempt
1 is at most the delay at attempt 2, and is capped at the config's
max_delay. -/
theorem C8_backoff_monotone_amended_witness :
    calculate_delay 1 noJitterLlmConfig none 0 ≤ calculate_delay 2 noJitterLlmConfig none 0
    ∧ calculate_delay 1 noJitterLlmConfig none 0 ≤ noJitterLlmConfig.max_delay :=
  C8_backoff_monotone_amended noJitterLlmConfig rfl (by norm_num [noJitterLlmConfig, llmRetryConfig])
    (by norm_num [noJitterLlmConfig, llmRetryConfig]) none 0 1
